import Mathlib

/-!
Verification of the SVT news crawler (`crawler.py`) against its specification.

The Lean definitions below are a shallow embedding of the Python source:
every definition mirrors the corresponding function of `crawler.py`
(line numbers refer to that file).  Network requests are modelled as
oracle functions passed in as parameters; file writes are modelled as
traces accumulated in the state.  Python exceptions that the source
leaves uncaught are modelled with `Except` / explicit `crash` outcomes.
-/

namespace Svt

/-- Python exceptions that matter for the embedded code paths. -/
inductive PyErr where
  | typeError
  | valueError
  | indexError
deriving DecidableEq, Repr

/-- Python `str.strip()` with no argument: remove leading and trailing
whitespace.  (Python also strips some exotic Unicode space characters;
the strings handled here only ever carry ASCII whitespace.) -/
def pyStrip (s : String) : String :=
  ⟨(((s.data.dropWhile Char.isWhitespace).reverse).dropWhile Char.isWhitespace).reverse⟩

/-- Python `str.startswith(pre)`: code-point prefix test. -/
def pyStartsWith (s pre : String) : Bool :=
  pre.data.isPrefixOf s.data

/-- Python slicing `s[n:]`: drop the first `n` code points. -/
def pyDrop (s : String) (n : Nat) : String :=
  ⟨s.data.drop n⟩

/-- Python slicing `s[:n]`: take the first `n` code points. -/
def pyTake (s : String) (n : Nat) : String :=
  ⟨s.data.take n⟩

/-- Decimal value of a digit string. -/
def decDigits (cs : List Char) : Nat :=
  cs.foldl (fun n c => n * 10 + (c.toNat - '0'.toNat)) 0

/-- Python `int(s)` restricted to non-negative decimal literals: `none`
models the `ValueError` on anything that is not a digit string.
(Python `int` additionally tolerates surrounding whitespace and a sign,
which the timestamp prefixes handled here never contain.) -/
def pyToNat (s : String) : Option Nat :=
  if s.data ≠ [] ∧ s.data.all Char.isDigit then some (decDigits s.data) else none

/-- Python `str.split(sep)` for a one-character separator: splits on
every occurrence, keeping empty fields (`"".split("/") = [""]`,
`"/x".split("/") = ["", "x"]`). -/
def pySplit (s : String) (sep : Char) : List String :=
  go s.data []
where
  /-- Walk the characters, accumulating the current field reversed. -/
  go : List Char → List Char → List String
  | [], acc => [⟨acc.reverse⟩]
  | c :: cs, acc => if c = sep then (⟨acc.reverse⟩ : String) :: go cs [] else go cs (c :: acc)

/-! ## Failure tracker (crawler.py lines 292-300)

`add_to_failed` appends a URL only when absent; `remove_from_failed`
uses Python `list.remove`, which deletes the first occurrence, guarded
by a membership test. -/

/-- Embedding of `SvtParser.add_to_failed` (lines 292-295). -/
def add_to_failed (l : List String) (url : String) : List String :=
  if url ∈ l then l else l ++ [url]

/-- Embedding of `SvtParser.remove_from_failed` (lines 297-300).
Python `list.remove` deletes the first occurrence, which is `List.erase`. -/
def remove_from_failed (l : List String) (url : String) : List String :=
  if url ∈ l then l.erase url else l

/-- An add or remove operation on the failed-URL list. -/
inductive FailedOp where
  | add (url : String)
  | remove (url : String)
deriving DecidableEq, Repr

/-- Apply a sequence of failed-list operations in order. -/
def applyFailedOps (l : List String) (ops : List FailedOp) : List String :=
  ops.foldl (fun acc op =>
    match op with
    | .add u => add_to_failed acc u
    | .remove u => remove_from_failed acc u) l

/-! ## Year bucketing (crawler.py lines 265-281) -/

/-- Embedding of the storage-year derivation inside `get_article`
(lines 267-276): `year = 0`; `if published: year = int(published[:4])`
`elif modified: year = int(modified[:4])`; a year outside
`[2004, this_year]` becomes the sentinel `"nodate"`.  `none` models the
`ValueError` that `int()` raises on a non-numeric prefix (caught by the
surrounding `except`, which makes the fetch fail).  Python `int` also
tolerates surrounding whitespace and a sign, which never occurs in the
timestamps considered here. -/
def storageYear (published modified : Option String) (thisYear : Nat) : Option String :=
  let fromModified : Option Nat :=
    match modified with
    | some m => if m ≠ "" then pyToNat (pyTake m 4) else some 0
    | none => some 0
  let yearOpt : Option Nat :=
    match published with
    | some p => if p ≠ "" then pyToNat (pyTake p 4) else fromModified
    | none => fromModified
  yearOpt.map (fun y => if y < 2004 ∨ thisYear < y then "nodate" else toString y)

/-- Path of the JSON file written by `get_article` (line 278):
`data/svt-<year>/<topic_name>/<article_id>.json`. -/
def articleFilePath (year topicName articleId : String) : String :=
  "data/svt-" ++ year ++ "/" ++ topicName ++ "/" ++ articleId ++ ".json"

/-! ## Crawl data model -/

/-- One item of a listing page's `auto.content[]`: the code reads
`c.get("url", "")` (a missing url behaves as `""`) and
`c.get("published", None)` (`none` models a missing field, which is
distinct from an empty string). -/
structure Item where
  url : String
  published : Option String
deriving DecidableEq, Repr

/-- One entry of an article response's `articles.content[]`; `id` holds
`str()` of the JSON id field. -/
structure Entry where
  id : String
  published : Option String
  modified : Option String
deriving DecidableEq, Repr

/-- An article API response: the list `articles.content[]`. -/
structure Article where
  content : List Entry
deriving DecidableEq, Repr

/-- Crawler state: the in-memory indices of `SvtParser` plus traces of
the observable effects (article-endpoint requests issued and article
JSON files written).  `crawledData` is the `crawled_data` dict as an
association list `shortUrl ↦ (articleId, year, topicName)`;
`prevCrawled` is `self.prev_crawled`; the `…Writes` fields count the
`write_json` calls made for the failed/crawled index files. -/
structure CrawlSt where
  savedUrls : List String
  crawledData : List (String × String × String × String)
  failedUrls : List String
  prevCrawled : Nat
  seenCtr : Nat
  newArticles : Nat
  saveCalls : Nat
  failedFileWrites : Nat
  crawledFileWrites : Nat
  fetchedArticles : List String
  writtenFiles : List String
deriving DecidableEq, Repr

/-- The empty crawler state (fresh `SvtParser` with no data on disk). -/
def crawlSt0 : CrawlSt :=
  { savedUrls := [], crawledData := [], failedUrls := [], prevCrawled := 0,
    seenCtr := 0, newArticles := 0, saveCalls := 0, failedFileWrites := 0,
    crawledFileWrites := 0, fetchedArticles := [], writtenFiles := [] }

/-- Crawl configuration: the article-fetch oracle (models the network:
`none` means the request or JSON parse raised, otherwise the parsed
`articles.content[]`), the `force` flag, the parsed `--stop` date and
the current year (`datetime.today()`). -/
structure CrawlCfg where
  fetchOracle : String → Option Article
  force : Bool
  stopdate : Option (Nat × Nat × Nat)
  thisYear : Nat

/-- Strip the known host prefix (lines 209-210 and 246-247):
`if short_url.startswith("https://www.svt.se"): short_url = short_url[18:]`. -/
def stripHost (s : String) : String :=
  if pyStartsWith s "https://www.svt.se" then pyDrop s 18 else s

/-- MAX_SEEN_ARTICLES (line 23). -/
def maxSeenArticles : Nat := 50

/-- Dictionary update for `crawled_data[short_url] = [article_id, year, topic]`
(line 281): replace an existing key in place, else append (CPython dict
insertion-order semantics). -/
def updateCrawled (m : List (String × String × String × String))
    (k articleId year topic : String) : List (String × String × String × String) :=
  if m.any (fun e => e.1 = k) then
    m.map (fun e => if e.1 = k then (k, articleId, year, topic) else e)
  else m ++ [(k, articleId, year, topic)]

/-- Add to the `saved_urls` set (line 282): a Python `set.add`. -/
def addSaved (l : List String) (u : String) : List String :=
  if u ∈ l then l else l ++ [u]

/-- Embedding of `SvtParser.get_article` (lines 243-290).  Returns the
boolean result together with the updated state.  The article-endpoint
request is recorded in `fetchedArticles` before the oracle is consulted;
`fetchOracle su = none` models the request/parse raising (caught, `False`),
an empty content list and a failing `int()` year parse are the other
`False` paths.  The `article_date` parameter of the Python function is
used only for a debug print and is not part of the state transition. -/
def get_article (cfg : CrawlCfg) (shortUrl topicName : String) (st : CrawlSt) :
    Bool × CrawlSt :=
  let su := stripHost shortUrl
  if su ∈ st.savedUrls ∧ ¬cfg.force then (true, st)
  else
    let st := { st with fetchedArticles := st.fetchedArticles ++ [su] }
    match cfg.fetchOracle su with
    | none => (false, st)
    | some art =>
      match art.content with
      | [] => (false, st)
      | e :: _ =>
        match storageYear e.published e.modified cfg.thisYear with
        | none => (false, st)
        | some y =>
          (true, { st with
            writtenFiles := st.writtenFiles ++ [articleFilePath y topicName e.id],
            crawledData := updateCrawled st.crawledData su e.id y topicName,
            savedUrls := addSaved st.savedUrls su,
            newArticles := st.newArticles + 1 })

/-- Embedding of `SvtParser.save_results` (lines 302-308): always called
(counted in `saveCalls`); writes the FAILED file when `failed_urls` is
non-empty and the CRAWLED file when the saved set grew. -/
def save_results (st : CrawlSt) : CrawlSt :=
  let st := { st with saveCalls := st.saveCalls + 1 }
  let st :=
    if st.failedUrls ≠ [] then { st with failedFileWrites := st.failedFileWrites + 1 }
    else st
  if st.prevCrawled < st.savedUrls.length then
    { st with crawledFileWrites := st.crawledFileWrites + 1,
              prevCrawled := st.savedUrls.length }
  else st

/-! ## Date handling (crawler.py lines 213-215)

`datetime.strptime(article_date[:10], "%Y-%m-%d")` is modelled by
`parseYMD`, which validates a zero-padded `YYYY-MM-DD` string including
month/day ranges and leap years (as `datetime` construction does) and
returns the date as a `(year, month, day)` triple; comparison of
`datetime` values on such triples is lexicographic. `strptime` also
accepts non-zero-padded months/days, which the zero-padded timestamps of
the SVT API never produce. -/

/-- Gregorian leap-year rule, as validated by `datetime`. -/
def isLeap (y : Nat) : Bool := (y % 4 = 0 ∧ y % 100 ≠ 0) ∨ y % 400 = 0

/-- Number of days of month `m` in year `y`. -/
def daysInMonth (y m : Nat) : Nat :=
  if m = 2 then (if isLeap y then 29 else 28)
  else if m = 4 ∨ m = 6 ∨ m = 9 ∨ m = 11 then 30
  else 31

/-- Digit value of a character. -/
def digitVal (c : Char) : Nat := c.toNat - '0'.toNat

/-- Parse a zero-padded `YYYY-MM-DD` string into `(year, month, day)`;
`none` models the `ValueError` raised by `strptime`. -/
def parseYMD (s : String) : Option (Nat × Nat × Nat) :=
  match s.data with
  | [y1, y2, y3, y4, h1, m1, m2, h2, d1, d2] =>
    if ([y1, y2, y3, y4, m1, m2, d1, d2].all Char.isDigit) ∧ h1 = '-' ∧ h2 = '-' then
      let y := ((digitVal y1 * 10 + digitVal y2) * 10 + digitVal y3) * 10 + digitVal y4
      let m := digitVal m1 * 10 + digitVal m2
      let d := digitVal d1 * 10 + digitVal d2
      if 1 ≤ m ∧ m ≤ 12 ∧ 1 ≤ d ∧ d ≤ daysInMonth y m then some (y, m, d) else none
    else none
  | _ => none

/-- Lexicographic (calendar) order on `(year, month, day)` triples:
`datetime` comparison. -/
def ymdLt (a b : Nat × Nat × Nat) : Bool :=
  a.1 < b.1 ∨ (a.1 = b.1 ∧ (a.2.1 < b.2.1 ∨ (a.2.1 = b.2.1 ∧ a.2.2 < b.2.2)))

/-! ## Listing walker (crawler.py lines 183-241) -/

/-- Outcome of processing one listing item (loop body, lines 207-239):
`cont` falls through to the next item, `stop` models `save_results();
return` (the topic is abandoned), `crash` models an exception that
propagates out of `get_urls` uncaught, aborting the whole crawl run. -/
inductive StepRes where
  | cont (st : CrawlSt)
  | stop (st : CrawlSt)
  | crash (st : CrawlSt) (e : PyErr)
deriving DecidableEq, Repr

/-- State carried by a step outcome. -/
def StepRes.state : StepRes → CrawlSt
  | .cont st => st
  | .stop st => st
  | .crash st _ => st

/-- The fetch phase of the item loop (lines 234-239):
`succeeded = self.get_article(short_url, topic_name, article_date[:10], force)`.
Evaluating the argument `article_date[:10]` raises `TypeError` when
`article_date` is `None` (`None` is not subscriptable) — this exception
is uncaught.  On success the short URL is removed from the failed list,
on failure it is added. -/
def fetchPhase (cfg : CrawlCfg) (topicName shortUrl : String)
    (published : Option String) (st : CrawlSt) : StepRes :=
  match published with
  | none => .crash st .typeError
  | some _ =>
    let r := get_article cfg shortUrl topicName st
    if r.1 then .cont { r.2 with failedUrls := remove_from_failed r.2.failedUrls shortUrl }
    else .cont { r.2 with failedUrls := add_to_failed r.2.failedUrls shortUrl }

/-- Embedding of one iteration of `for c in pagecontent` (lines 207-239):
items with an empty short URL are skipped entirely; with a stop date set
and a truthy `published`, the date is parsed (`crash` on `ValueError`)
and an older date stops the topic; otherwise the seen-streak counter is
incremented (already-saved URL, no `force`) or reset, a streak of
`maxSeenArticles` stops the topic when no stop date is given, and the
item finally reaches the fetch phase. -/
def processItem (cfg : CrawlCfg) (topicName : String) (c : Item) (st : CrawlSt) :
    StepRes :=
  let shortUrl := stripHost c.url
  if shortUrl = "" then .cont st
  else
    let dateStep : Option StepRes :=
      match cfg.stopdate, c.published with
      | some sd, some d =>
        if d ≠ "" then
          match parseYMD (pyTake d 10) with
          | none => some (.crash st .valueError)
          | some pd => if ymdLt pd sd then some (.stop (save_results st)) else none
        else none
      | _, _ => none
    match dateStep with
    | some r => r
    | none =>
      if ¬cfg.force ∧ shortUrl ∈ st.savedUrls then
        let st1 := { st with seenCtr := st.seenCtr + 1 }
        if cfg.stopdate = none ∧ maxSeenArticles ≤ st1.seenCtr then
          .stop (save_results st1)
        else fetchPhase cfg topicName shortUrl c.published st1
      else fetchPhase cfg topicName shortUrl c.published { st with seenCtr := 0 }

/-- Process the items of one listing page in order, with the early
returns of `get_urls` propagated. -/
def processPage (cfg : CrawlCfg) (topicName : String) (items : List Item)
    (st : CrawlSt) : StepRes :=
  match items with
  | [] => .cont st
  | c :: rest =>
    match processItem cfg topicName c st with
    | .cont st1 => processPage cfg topicName rest st1
    | r => r

/-- A listing page beyond the first: its request URL and its parsed
`auto.content` (`none` models the request or JSON parse raising, in
which case `pagecontent` stays `[]` and the listing URL is added to the
failed list, lines 188-205).  On a successful fetch the listing URL is
removed from the failed list if present (lines 199-200). -/
structure Page where
  listingUrl : String
  content : Option (List Item)

/-- Embedding of one iteration of the page loop for pages after the
first (lines 186-241), ending with `save_results()` when the item loop
falls through. -/
def runPage (cfg : CrawlCfg) (topicName : String) (pg : Page) (st : CrawlSt) :
    StepRes :=
  let itemsSt : List Item × CrawlSt :=
    match pg.content with
    | some its =>
      (its, { st with failedUrls := remove_from_failed st.failedUrls pg.listingUrl })
    | none => ([], { st with failedUrls := add_to_failed st.failedUrls pg.listingUrl })
  match processPage cfg topicName itemsSt.1 itemsSt.2 with
  | .cont st1 => .cont (save_results st1)
  | r => r

/-- Result of a whole topic's page loop: normal completion or an
uncaught exception aborting the crawl. -/
inductive CrawlRes where
  | done (st : CrawlSt)
  | crashed (st : CrawlSt) (e : PyErr)
deriving DecidableEq, Repr

/-- Run the pages after the first; a `stop` returns from `get_urls`
without touching the remaining pages. -/
def runPages (cfg : CrawlCfg) (topicName : String) (pgs : List Page) (st : CrawlSt) :
    CrawlRes :=
  match pgs with
  | [] => .done st
  | p :: rest =>
    match runPage cfg topicName p st with
    | .cont st1 => runPages cfg topicName rest st1
    | .stop st1 => .done st1
    | .crash st1 e => .crashed st1 e

/-- Embedding of `SvtParser.get_urls` (lines 183-241) for a topic with
at least one page: `prev_crawled` is initialised to the saved-set size,
the first page's already-fetched content is processed, then the
remaining pages.  (The page-count arithmetic of `crawl` and the
first-page request itself are outside this function in the source.) -/
def get_urls (cfg : CrawlCfg) (topicName : String) (firstItems : List Item)
    (restPages : List Page) (st : CrawlSt) : CrawlRes :=
  let st := { st with prevCrawled := st.savedUrls.length }
  match processPage cfg topicName firstItems st with
  | .cont st1 => runPages cfg topicName restPages (save_results st1)
  | .stop st1 => .done st1
  | .crash st1 e => .crashed st1 e

/-! ## Retry pass (crawler.py lines 380-434)

Note the arity of `get_article` (line 243): it takes the required
positional parameters `short_url`, `topic_name`, `article_date`.  Both
call sites inside `retry_failed` (lines 408 and 421) pass only two
arguments, so each such call raises
`TypeError: get_article() missing 1 required positional argument: 'article_date'`
at the call itself.  Inside the listing branch the call sits in a
`try`/`except` (lines 402-417), so the `TypeError` is caught and the
listing URL lands in `new_failed`; in the direct-article branch
(line 421) nothing catches it and the whole retry pass aborts. -/

/-- The API root used to recognise listing-page URLs (line 391/401);
its length is 31, matching `url[31:]`. -/
def apiRoot : String := "https://api.svt.se/nss-api/page"

/-- Topic-name derivation from the URL's path segments (lines 393-398);
`.error .indexError` models the uncaught `IndexError` when the path has
too few segments. -/
def topicFromUrl (su : String) : Except PyErr String :=
  let parts := pySplit su '/'
  if pyStartsWith su "/nyheter/lokalt" then
    match parts.get? 3 with
    | some t => .ok t
    | none => .error .indexError
  else if pyStartsWith su "/nyheter" then
    match parts.get? 2 with
    | some t => .ok t
    | none => .error .indexError
  else
    match parts.get? 1 with
    | some t => .ok t
    | none => .error .indexError

/-- Python `set.add`, with insertion order kept for determinism. -/
def addSet (l : List String) (u : String) : List String :=
  if u ∈ l then l else l ++ [u]

/-- Accumulator of the retry loop: crawler state plus the local
`success` and `new_failed` sets. -/
structure RetryAcc where
  st : CrawlSt
  success : List String
  newFailed : List String
deriving Repr

/-- Embedding of one iteration of `for url in self.failed_urls`
(lines 389-424).  `listingOracle` models the listing request of the
listing branch.  In the listing branch, the first contained item with a
non-empty URL triggers the two-argument `self.get_article(short_url,
topic_name)` call, whose `TypeError` is caught by the surrounding
`except`, putting the listing URL into `new_failed`; if no item has a
URL the loop completes and the listing URL is counted a success.  In
the direct-article branch the two-argument call's `TypeError` is
uncaught and aborts the pass. -/
def retryStep (listingOracle : String → Option (List Item)) (acc : RetryAcc)
    (url : String) : Except PyErr RetryAcc := do
  let su := if pyStartsWith url apiRoot then pyDrop url 31 else url
  let _topicName ← topicFromUrl su
  if pyStartsWith url apiRoot then
    match listingOracle url with
    | none => pure { acc with newFailed := addSet acc.newFailed url }
    | some content =>
      if content.any (fun c => c.url ≠ "") then
        pure { acc with newFailed := addSet acc.newFailed url }
      else
        pure { acc with success := addSet acc.success url }
  else
    .error .typeError

/-- Embedding of `SvtParser.retry_failed` (lines 380-434): iterate the
failed list; afterwards remove the successes, re-add the new failures,
and write both index files once.  Any direct-article entry aborts the
pass with the uncaught `TypeError` described at `retryStep`. -/
def retry_failed (listingOracle : String → Option (List Item)) (st : CrawlSt) :
    Except PyErr CrawlSt := do
  if st.failedUrls = [] then pure st
  else
    let acc ← st.failedUrls.foldlM (retryStep listingOracle)
      { st := st, success := [], newFailed := [] }
    let st1 := acc.success.foldl
      (fun s u => { s with failedUrls := remove_from_failed s.failedUrls u }) acc.st
    let st2 := acc.newFailed.foldl
      (fun s u => { s with failedUrls := add_to_failed s.failedUrls u }) st1
    pure { st2 with failedFileWrites := st2.failedFileWrites + 1,
                    crawledFileWrites := st2.crawledFileWrites + 1 }

/-! ## JSON→XML transformer (crawler.py lines 506-589) -/

/-- One node of `structuredLead` / `structuredBody`: the dict fields
`type`, `content` and `children` (`none` models an absent key — the
code distinguishes `"children" in elem` from an empty list). -/
inductive JsonElem where
  | node (jtype : Option String) (content : Option String)
         (children : Option (List JsonElem)) : JsonElem
deriving Repr

/-- An `lxml` element: tag, text (an empty string is a real, empty text
node in libxml2, distinct from no text at all), attributes, children. -/
inductive XmlNode where
  | el (tag : String) (text : Option String) (attrs : List (String × String))
       (children : List XmlNode) : XmlNode
deriving Repr

/-- Tag of an element. -/
def XmlNode.tagOf : XmlNode → String
  | .el t _ _ _ => t

/-- Text of an element. -/
def XmlNode.textOf : XmlNode → Option String
  | .el _ tx _ _ => tx

/-- Children of an element. -/
def XmlNode.childrenOf : XmlNode → List XmlNode
  | .el _ _ _ cs => cs

/-- Replace the text of an element. -/
def XmlNode.withText : XmlNode → Option String → XmlNode
  | .el t _ a cs, tx => .el t tx a cs

/-- Append a child (`etree.SubElement` attaches at the end). -/
def XmlNode.addChild : XmlNode → XmlNode → XmlNode
  | .el t tx a cs, c => .el t tx a (cs ++ [c])

/-- The node types skipped as text carriers (line 512). -/
def skipTypes : List String := ["svt-image", "svt-video", "svt-scribblefeed"]

/-- Does `re.match(r"p|h\d", json_tag)` succeed?  The regex is
unanchored at the end: it matches any tag starting with `p`, or with
`h` followed by a digit. -/
def phMatch (t : String) : Bool :=
  match t.data with
  | 'p' :: _ => true
  | 'h' :: c :: _ => c.isDigit
  | _ => false

/-- Embedding of the inner `parse_element(elem, parent)` of
`process_article` (lines 508-525), returning the updated parent
subtree.  The Python function mutates the tree and returns a reference
to the element the first-child chain ended at; only the mutation is
relevant here (the return value is used by the caller solely to tag
lead paragraphs).  Behaviour mirrored:

* unless the node type is in `skipTypes`, the node's own `content` is
  appended (space-separated) to the parent's existing text, or becomes
  the parent's text if the parent had none and the content is not
  blank — note this happens before any new paragraph child is created;
* only when the node has a `children` key: a tag matching `p|h\d` (with
  the parent not already a `p`) creates a fresh `p` child, and recursion
  descends into the first child only (`return` inside the `for` loop);
  `re.match` with a `None` tag raises `TypeError` (fatal in the body
  loop). -/
def parse_element (elem : JsonElem) (parent : XmlNode) : Except PyErr XmlNode :=
  match elem with
  | .node jtype content children =>
    let cGet := content.getD ""
    let skip : Bool :=
      match jtype with
      | some t => t ∈ skipTypes
      | none => false
    let parent1 :=
      if skip then parent
      else
        match parent.textOf with
        | some t => parent.withText (some (t ++ " " ++ cGet))
        | none => if pyStrip cGet ≠ "" then parent.withText (some cGet) else parent
    match children with
    | none => .ok parent1
    | some cs =>
      match jtype with
      | none => .error .typeError
      | some t =>
        if phMatch t ∧ parent.tagOf ≠ "p" then
          match cs with
          | [] => .ok (parent1.addChild (.el "p" none [] []))
          | c :: _ =>
            match parse_element c (.el "p" none [] []) with
            | .ok sub => .ok (parent1.addChild sub)
            | .error e => .error e
        else
          match cs with
          | [] => .ok parent1
          | c :: _ => parse_element c parent1
termination_by sizeOf elem
decreasing_by
  all_goals simp_wf
  all_goals simp_all
  all_goals omega

/-- Value of the root element's `url` attribute after `process_article`
(lines 550-553).  `set_attribute` first sets the stripped url when it is
non-empty; then, by Python operator precedence,
`if url and not url.startswith("http") or url.startswith("www"):`
parses as `(url and not url.startswith("http")) or url.startswith("www")`,
and the matching urls are overwritten with `"https://www.svt.se" + url`.
`none` means no `url` attribute is set. -/
def articleUrlAttr (url : String) : Option String :=
  let u := pyStrip url
  let base : Option String := if u ≠ "" then some u else none
  if (u ≠ "" ∧ ¬(pyStartsWith u "http" = true)) ∨ pyStartsWith u "www" = true then
    some ("https://www.svt.se" ++ u)
  else base

/-- Is an element matched by the cleanup XPath `.//*[not(node())]`
(line 583)?  True when it has no child elements and no text node; an
empty-string text is an (empty) text node in libxml2 and therefore
counts as a node. -/
def isEmptyEl : XmlNode → Bool
  | .el _ tx _ cs => cs.isEmpty && tx.isNone

/-- Embedding of the empty-element cleanup (lines 583-584): the XPath
result is a snapshot, so an element is removed exactly when it was
empty in the original tree; elements that become childless through the
removal of their children stay. -/
def pruneEmpty : XmlNode → XmlNode
  | .el t tx a cs => .el t tx a (pruneList cs)
where
  /-- Prune a snapshot list of children. -/
  pruneList : List XmlNode → List XmlNode
  | [] => []
  | c :: rest => if isEmptyEl c then pruneList rest else pruneEmpty c :: pruneList rest

/-- The root `<text>` element just before the body loop, for an article
whose attribute-bearing fields are all absent: the title paragraph
(lines 562-564) is always created, with the stripped title as its text
(an absent title yields an empty text node) and a `type="title"`
attribute. -/
def rootWithTitle (title : String) : XmlNode :=
  .el "text" none [] [.el "p" (some (pyStrip title)) [("type", "title")] []]

/-- Embedding of the body loop (lines 571-579): each node of
`structuredBody` is passed to `parse_element` with the root as parent;
an exception there is fatal to the whole run (`exit()`), modelled by the
propagated error. -/
def processBody (body : List JsonElem) (root : XmlNode) : Except PyErr XmlNode :=
  match body with
  | [] => .ok root
  | e :: rest =>
    match parse_element e root with
    | .ok root1 => processBody rest root1
    | .error er => .error er

/-- Transformer output tree for an article with no attributes and no
lead: title paragraph, body flattening, then empty-element cleanup. -/
def bodyOutput (title : String) (body : List JsonElem) : Except PyErr XmlNode :=
  match processBody body (rootWithTitle title) with
  | .ok t => .ok (pruneEmpty t)
  | .error e => .error e

/-- Does any element of the tree have, among its children, a `p` node
with text `a` followed (possibly not adjacently) by a `p` node with
text `b`?  This is the "two sibling paragraph nodes with texts A and B"
shape of the specification. -/
def siblingParas : XmlNode → String → String → Bool
  | .el _ _ _ cs, a, b => pairInList cs a b || anyChild cs a b
where
  /-- A `p` child with text `a` occurring before a `p` child with text `b`. -/
  pairInList : List XmlNode → String → String → Bool
  | [], _, _ => false
  | c :: rest, a, b =>
    (c.tagOf = "p" && c.textOf = some a && rest.any (fun d => d.tagOf = "p" && d.textOf = some b))
      || pairInList rest a b
  /-- Recurse into the children. -/
  anyChild : List XmlNode → String → String → Bool
  | [], _, _ => false
  | c :: rest, a, b => siblingParas c a b || anyChild rest a b

/-! ## Corpus batcher (crawler.py lines 441-498) -/

/-- Buffer state of the XML conversion loop for one topic directory:
the accumulated `contents` string, the output-file counter, and the
`<counter>.xml` files written so far (index and full contents). -/
structure BatchSt where
  contents : String
  filecounter : Nat
  written : List (Nat × String)
deriving DecidableEq, Repr

/-- Initial buffer (line 465, with `filecounter = 1` as for a fresh
topic directory, line 470). -/
def batchSt0 : BatchSt :=
  { contents := "<articles>\n", filecounter := 1, written := [] }

/-- Embedding of the per-file loop body after a transformed article
`xml` is produced (lines 484-490): append `xml + "\n"`; if the UTF-8
byte size of the buffer now exceeds 5,000,000, flush it through
`write_contents` (which appends the closing `</articles>` tag and
writes `<contents_dir>/<filecounter>.xml`), increment the counter and
reset the buffer. -/
def appendArticleXml (st : BatchSt) (xml : String) : BatchSt :=
  let c := st.contents ++ xml ++ "\n"
  if 5000000 < c.utf8ByteSize then
    { contents := "<articles>\n", filecounter := st.filecounter + 1,
      written := st.written ++ [(st.filecounter, c ++ "</articles>")] }
  else { st with contents := c }

/-- Embedding of the end-of-topic flush (lines 493-495): the remaining
buffer is written when longer than the 11 characters of the bare
`"<articles>\n"` wrapper. -/
def writeRemaining (st : BatchSt) : BatchSt :=
  if 11 < st.contents.length then
    { st with written := st.written ++ [(st.filecounter, st.contents ++ "</articles>")] }
  else st

/-- One topic directory's batching run over the transformed article
strings, in file order. -/
def runTopicBatch (xmls : List String) : BatchSt :=
  writeRemaining (xmls.foldl appendArticleXml batchSt0)

/-! ## Derived predicates used by the theorems -/

/-- Does the stop-date comparison of lines 213-218 fire for this item?
(Stop date set, truthy `published`, parseable 10-character date prefix,
date strictly before the stop date.) -/
def dateTrigger (cfg : CrawlCfg) (c : Item) : Bool :=
  match cfg.stopdate, c.published with
  | some sd, some d =>
    d ≠ "" && (match parseYMD (pyTake d 10) with
               | some pd => ymdLt pd sd
               | none => false)
  | _, _ => false

/-- Does the `strptime` call of line 214 raise for this item?
(Stop date set, truthy `published`, unparseable date prefix.) -/
def dateCrash (cfg : CrawlCfg) (c : Item) : Bool :=
  match cfg.stopdate, c.published with
  | some _, some d => d ≠ "" && (parseYMD (pyTake d 10)).isNone
  | _, _ => false

/-- The stop-date block of lines 213-218 falls through to the
seen-streak logic. -/
def dateGateOpen (cfg : CrawlCfg) (c : Item) : Bool :=
  !dateTrigger cfg c && !dateCrash cfg c

/-- The state at the moment the uncaught `TypeError` of line 235 is
raised for an item with no `published` field: the seen-streak counter
has already been updated by lines 220-232. -/
def crashState (cfg : CrawlCfg) (c : Item) (st : CrawlSt) : CrawlSt :=
  if ¬cfg.force ∧ stripHost c.url ∈ st.savedUrls then { st with seenCtr := st.seenCtr + 1 }
  else { st with seenCtr := 0 }

/-- A transformed article is recoverable from the batching state: it is
an infix of a written file, or still an infix of the pending buffer
(which is then strictly longer than the bare wrapper, so the final
flush will write it). -/
def inBatchOutput (st : BatchSt) (x : String) : Prop :=
  (∃ f ∈ st.written, x.data <:+: f.2.data)
  ∨ (x.data <:+: st.contents.data ∧ 11 < st.contents.length)

/-! ## Concrete sample inputs for the closed theorems -/

/-- The literal body of the specification's flattening example:
`[ \x7btype:"p", content:"A"\x7d, \x7btype:"h2", content:"B"\x7d ]`,
with no `children` keys. -/
def litBody : List JsonElem :=
  [.node (some "p") (some "A") none, .node (some "h2") (some "B") none]

/-- The same two nodes in the shape the SVT API actually delivers:
the text sits in a `text` child under each `p`/`h2` node. -/
def amBody : List JsonElem :=
  [.node (some "p") none (some [.node (some "text") (some "A") none]),
   .node (some "h2") none (some [.node (some "text") (some "B") none])]

/-- Transformer output for `litBody`: both texts end up space-joined in
the root's text, and no paragraph child carries them. -/
def c3LitTree : XmlNode :=
  .el "text" (some "A B") [] [.el "p" (some "") [("type", "title")] []]

/-- Transformer output for `amBody`: two sibling paragraph children
with texts `A` and `B`. -/
def c3AmTree : XmlNode :=
  .el "text" none []
    [.el "p" (some "") [("type", "title")] [],
     .el "p" (some "A") [] [], .el "p" (some "B") [] []]

/-- Article oracle that always fails (request raises). -/
def noneOracle : String → Option Article := fun _ => none

/-- Listing oracle that always fails (request raises). -/
def noneListingOracle : String → Option (List Item) := fun _ => none

/-- Article oracle returning one entry published in 1999. -/
def oracle1999 : String → Option Article :=
  fun _ => some { content := [{ id := "42", published := some "1999-01-01", modified := none }] }

/-- Article oracle returning one entry published in 2022. -/
def oracle2022 : String → Option Article :=
  fun _ => some { content := [{ id := "43", published := some "2022-05-01", modified := none }] }

/-- Crawl with `--stop 2020-01-01` (and failing article fetches). -/
def cfgStop2020 : CrawlCfg :=
  { fetchOracle := noneOracle, force := false, stopdate := some (2020, 1, 1), thisYear := 2026 }

/-- Crawl configuration whose article oracle returns the 1999 article. -/
def cfg1999 (thisYear : Nat) : CrawlCfg :=
  { fetchOracle := oracle1999, force := false, stopdate := none, thisYear := thisYear }

/-- Crawl configuration whose article oracle returns the 2022 article. -/
def cfg2022 (thisYear : Nat) : CrawlCfg :=
  { fetchOracle := oracle2022, force := false, stopdate := none, thisYear := thisYear }

/-- Crawl without a stop date (and failing article fetches). -/
def cfgNoStop : CrawlCfg :=
  { fetchOracle := noneOracle, force := false, stopdate := none, thisYear := 2026 }

/-- A listing item with an empty URL but an old publication date. -/
def itemEmptyOld : Item := { url := "", published := some "2019-12-31" }

/-- A listing item dated after the 2020-01-01 stop date. -/
def itemNew2020 : Item := { url := "/nyheter/inrikes/a", published := some "2020-02-01" }

/-- A listing item dated before the 2020-01-01 stop date. -/
def itemOld2019 : Item := { url := "/nyheter/inrikes/x", published := some "2019-12-31" }

/-- An already-indexed item (`/a`) with a date. -/
def itemSeenA : Item := { url := "/a", published := some "2024-01-01" }

/-- An already-indexed item (`/a`) with no `published` field. -/
def itemSeenANoDate : Item := { url := "/a", published := none }

/-- An already-indexed item (`/b`) with a date. -/
def itemSeenB : Item := { url := "/b", published := some "2024-01-01" }

/-- A fresh item with no `published` field. -/
def itemNoDate : Item := { url := "/nyheter/inrikes/c", published := none }

/-- State after the stop-date counterexample page: the item after the
undated-URL old item was fetched (it is in `fetchedArticles`, and in
`failedUrls` because the oracle fails), and no stop happened
(`saveCalls = 0`). -/
def c4CexSt : CrawlSt :=
  { savedUrls := [], crawledData := [], failedUrls := ["/nyheter/inrikes/a"],
    prevCrawled := 0, seenCtr := 0, newArticles := 0, saveCalls := 0,
    failedFileWrites := 0, crawledFileWrites := 0,
    fetchedArticles := ["/nyheter/inrikes/a"], writtenFiles := [] }

/-- A state with a running seen-streak of 1. -/
def c5CexSt : CrawlSt := { crawlSt0 with seenCtr := 1 }

/-- State with `/a` indexed, for the 50-seen-items runs. -/
def c9St : CrawlSt := { crawlSt0 with savedUrls := ["/a"], prevCrawled := 1 }

/-- 49 dated already-indexed items followed by an undated
already-indexed item. -/
def c9Items : List Item := List.replicate 49 itemSeenA ++ [itemSeenANoDate]

/-- Outcome of `c9Items` on `c9St`: a clean streak stop, no crash. -/
def c9OutSt : CrawlSt :=
  { crawlSt0 with savedUrls := ["/a"], prevCrawled := 1, seenCtr := 50, saveCalls := 1 }

/-- State with `/a` and `/b` indexed and `/b` still in the failed list. -/
def c10St : CrawlSt :=
  { crawlSt0 with savedUrls := ["/a", "/b"], prevCrawled := 2, failedUrls := ["/b"] }

/-- 49 already-indexed `/a` items followed by the already-indexed `/b`
item that is still in the failed list. -/
def c10Items : List Item := List.replicate 49 itemSeenA ++ [itemSeenB]

/-- Outcome of `c10Items` on `c10St`: streak stop at the 50th item with
`/b` still in the failed list and no article request issued. -/
def c10OutSt : CrawlSt :=
  { c10St with seenCtr := 50, saveCalls := 1, failedFileWrites := 1 }

/-- A failed list holding one direct article URL. -/
def retryArticleSt : CrawlSt := { crawlSt0 with failedUrls := ["/nyheter/inrikes/alpha"] }

/-- A 16-byte ASCII seed for building large strings. -/
def bigChunk : String := "0123456789abcdef"

/-- Repeated doubling of `bigChunk`: `bigStr n` has `16 * 2 ^ n` UTF-8
bytes. -/
def bigStr : Nat → String
  | 0 => bigChunk
  | n + 1 => bigStr n ++ bigStr n

/-- A batch state whose buffer already holds more than 5,000,000 bytes
(`16 * 2 ^ 19 = 8388608`). -/
def bigBatch : BatchSt := { contents := bigStr 19, filecounter := 1, written := [] }

/-! ## Helper lemmas -/

/-- String concatenation concatenates the character lists. -/
theorem string_data_append (a b : String) : (a ++ b).data = a.data ++ b.data := by
  cases a
  cases b
  rfl

/-- UTF-8 byte size is additive over concatenation. -/
theorem string_utf8_append (a b : String) :
    (a ++ b).utf8ByteSize = a.utf8ByteSize + b.utf8ByteSize := by
  cases a with
  | mk da =>
    cases b with
    | mk db =>
      show (String.mk (da ++ db)).utf8ByteSize = _
      simp [String.utf8ByteSize_mk]

/-- Length is additive over concatenation. -/
theorem string_length_append (a b : String) : (a ++ b).length = a.length + b.length :=
  String.length_append a b

/-- Byte size of the doubling strings. -/
theorem bigStr_size (n : Nat) : (bigStr n).utf8ByteSize = 16 * 2 ^ n := by
  induction n with
  | zero => rfl
  | succ n ih =>
    show (bigStr n ++ bigStr n).utf8ByteSize = _
    rw [string_utf8_append, ih, pow_succ]
    ring

/-- `save_results` does not touch the seen-streak counter. -/
theorem save_results_seenCtr (st : CrawlSt) : (save_results st).seenCtr = st.seenCtr := by
  unfold save_results
  dsimp only
  (repeat' split) <;> rfl

/-- `save_results` issues no article request. -/
theorem save_results_fetched (st : CrawlSt) :
    (save_results st).fetchedArticles = st.fetchedArticles := by
  unfold save_results
  dsimp only
  (repeat' split) <;> rfl

/-- `save_results` counts one persistence checkpoint. -/
theorem save_results_saveCalls (st : CrawlSt) : (save_results st).saveCalls = st.saveCalls + 1 := by
  unfold save_results
  dsimp only
  (repeat' split) <;> rfl

/-- `get_article` never touches the seen-streak counter. -/
theorem get_article_seenCtr (cfg : CrawlCfg) (u tn : String) (st : CrawlSt) :
    ((get_article cfg u tn st).2).seenCtr = st.seenCtr := by
  unfold get_article
  dsimp only
  (repeat' split) <;> rfl

/-- The fetch phase never stops the topic (it continues or crashes). -/
theorem fetchPhase_ne_stop (cfg : CrawlCfg) (tn u : String) (pub : Option String)
    (st st1 : CrawlSt) : fetchPhase cfg tn u pub st ≠ .stop st1 := by
  unfold fetchPhase
  dsimp only
  (repeat' split) <;> (intro h; exact StepRes.noConfusion h)

/-- The seen-streak counter after the fetch phase is the one it was
entered with. -/
theorem fetchPhase_seenCtr (cfg : CrawlCfg) (tn u : String) (pub : Option String)
    (st : CrawlSt) : ((fetchPhase cfg tn u pub st).state).seenCtr = st.seenCtr := by
  unfold fetchPhase
  dsimp only
  (repeat' split) <;> simp [StepRes.state, get_article_seenCtr]

/-- Once some item of a page is known to terminate the item loop for
every state, the items after it are irrelevant. -/
theorem processPage_early_exit (cfg : CrawlCfg) (tn : String) (trig : Item)
    (h : ∀ st st1, processItem cfg tn trig st ≠ .cont st1) :
    ∀ (pre post : List Item) (st : CrawlSt),
      processPage cfg tn (pre ++ trig :: post) st = processPage cfg tn (pre ++ [trig]) st := by
  intro pre
  induction pre with
  | nil =>
    intro post st
    show processPage cfg tn (trig :: post) st = processPage cfg tn (trig :: []) st
    cases hr : processItem cfg tn trig st with
    | cont st1 => exact absurd hr (h st st1)
    | stop st1 => simp [processPage, hr]
    | crash st1 e => simp [processPage, hr]
  | cons c rest ih =>
    intro post st
    show processPage cfg tn (c :: (rest ++ trig :: post)) st
        = processPage cfg tn (c :: (rest ++ [trig])) st
    cases hr : processItem cfg tn c st with
    | cont st1 => simpa [processPage, hr] using ih post st1
    | stop st1 => simp [processPage, hr]
    | crash st1 e => simp [processPage, hr]

/-- An infix of a list is an infix of any right-extension. -/
theorem infix_ext_right {α : Type} (l l1 l2 : List α) (h : l <:+: l1) : l <:+: l1 ++ l2 :=
  h.trans ⟨[], l2, by simp⟩

/-- The middle part of a three-way concatenation is an infix. -/
theorem infix_mid {α : Type} (a x c : List α) : x <:+: a ++ x ++ c :=
  ⟨a, c, rfl⟩

/-- Appending an article keeps the buffer at least as long as the bare
wrapper. -/
theorem batch_len_ge (st : BatchSt) (x : String) (h : 11 ≤ st.contents.length) :
    11 ≤ (appendArticleXml st x).contents.length := by
  unfold appendArticleXml
  dsimp only
  split
  · show (11 : Nat) ≤ ("<articles>\n" : String).length
    decide
  · show 11 ≤ (st.contents ++ x ++ "\n").length
    rw [string_length_append, string_length_append]
    omega

/-- Appending an article preserves recoverability of earlier articles. -/
theorem batch_step_preserves (st : BatchSt) (x y : String) (hy : inBatchOutput st y) :
    inBatchOutput (appendArticleXml st x) y := by
  unfold appendArticleXml
  dsimp only
  rcases hy with ⟨f, hf, hinf⟩ | ⟨hinf, hlen⟩
  · split
    · exact .inl ⟨f, by simp [hf], hinf⟩
    · exact .inl ⟨f, hf, hinf⟩
  · have hbig : y.data <:+: ((st.contents ++ x ++ "\n") ++ "</articles>").data := by
      rw [string_data_append, string_data_append, string_data_append]
      refine hinf.trans ?_
      exact ⟨[], x.data ++ "\n".data ++ "</articles>".data, by simp⟩
    split
    · exact .inl ⟨(st.filecounter, (st.contents ++ x ++ "\n") ++ "</articles>"), by simp, hbig⟩
    · refine .inr ⟨?_, ?_⟩
      · rw [string_data_append, string_data_append]
        exact hinf.trans ⟨[], x.data ++ "\n".data, by simp⟩
      · show 11 < (st.contents ++ x ++ "\n").length
        rw [string_length_append, string_length_append]
        omega

/-- The article just appended is recoverable from the batching state. -/
theorem batch_step_adds (st : BatchSt) (x : String) (h : 11 ≤ st.contents.length) :
    inBatchOutput (appendArticleXml st x) x := by
  unfold appendArticleXml
  dsimp only
  have hmid : x.data <:+: (st.contents ++ x ++ "\n").data := by
    rw [string_data_append, string_data_append]
    exact infix_mid st.contents.data x.data "\n".data
  split
  · refine .inl ⟨(st.filecounter, (st.contents ++ x ++ "\n") ++ "</articles>"), by simp, ?_⟩
    rw [string_data_append]
    exact infix_ext_right _ _ _ hmid
  · refine .inr ⟨hmid, ?_⟩
    show 11 < (st.contents ++ x ++ "\n").length
    rw [string_length_append, string_length_append]
    have h1 : ("\n" : String).length = 1 := rfl
    omega

/-- Folding articles into the buffer keeps the wrapper-length invariant
and the recoverability of every article seen so far. -/
theorem batch_fold (xmls : List String) :
    ∀ st : BatchSt, 11 ≤ st.contents.length →
      (11 ≤ (xmls.foldl appendArticleXml st).contents.length
       ∧ (∀ y, inBatchOutput st y → inBatchOutput (xmls.foldl appendArticleXml st) y)
       ∧ (∀ x ∈ xmls, inBatchOutput (xmls.foldl appendArticleXml st) x)) := by
  induction xmls with
  | nil =>
    intro st h
    exact ⟨h, fun y hy => hy, fun x hx => absurd hx (List.not_mem_nil x)⟩
  | cons z rest ih =>
    intro st h
    have h1 := batch_len_ge st z h
    obtain ⟨hlen, hpres, hmem⟩ := ih (appendArticleXml st z) h1
    refine ⟨hlen, ?_, ?_⟩
    · intro y hy
      exact hpres y (batch_step_preserves st z y hy)
    · intro x hx
      rcases List.mem_cons.1 hx with hx | hx
      · subst hx
        exact hpres x (batch_step_adds st x h)
      · exact hmem x hx

/-- The end-of-topic flush turns recoverability into an actual written
file. -/
theorem batch_final (st : BatchSt) (x : String) (hx : inBatchOutput st x) :
    ∃ f ∈ (writeRemaining st).written, x.data <:+: f.2.data := by
  unfold writeRemaining
  rcases hx with ⟨f, hf, hinf⟩ | ⟨hinf, hlen⟩
  · split
    · exact ⟨f, by simp [hf], hinf⟩
    · exact ⟨f, hf, hinf⟩
  · rw [if_pos hlen]
    refine ⟨(st.filecounter, st.contents ++ "</articles>"), by simp, ?_⟩
    rw [string_data_append]
    exact infix_ext_right _ _ _ hinf

/-! ## Claim theorems -/

/-- C7: `add_to_failed` and `remove_from_failed` are idempotent
set-like operations, and any sequence of them starting from a
duplicate-free failed list keeps it duplicate-free. -/
theorem failed_list_set_like :
    (∀ (l : List String) (u : String), add_to_failed (add_to_failed l u) u = add_to_failed l u)
    ∧ (∀ (l : List String) (u : String), l.Nodup →
        remove_from_failed (remove_from_failed l u) u = remove_from_failed l u)
    ∧ (∀ (l : List String) (ops : List FailedOp), l.Nodup → (applyFailedOps l ops).Nodup) := by
  refine ⟨?_, ?_, ?_⟩
  · intro l u
    by_cases h : u ∈ l
    · simp [add_to_failed, h]
    · simp [add_to_failed, h]
  · intro l u hnd
    by_cases h : u ∈ l
    · have h2 : u ∉ l.erase u := by
        intro hc
        have := (List.Nodup.mem_erase_iff hnd).1 hc
        exact this.1 rfl
      simp [remove_from_failed, h, h2]
    · simp [remove_from_failed, h]
  · intro l ops
    induction ops generalizing l with
    | nil =>
      intro h
      simpa [applyFailedOps] using h
    | cons op rest ih =>
      intro h
      have hstep : (applyFailedOps l [op]).Nodup := by
        cases op with
        | add u =>
          by_cases hm : u ∈ l
          · simpa [applyFailedOps, add_to_failed, hm] using h
          · simp only [applyFailedOps, List.foldl_cons, List.foldl_nil, add_to_failed, if_neg hm]
            simp [List.nodup_append, h, hm]
        | remove u =>
          by_cases hm : u ∈ l
          · simpa [applyFailedOps, remove_from_failed, hm] using h.erase u
          · simpa [applyFailedOps, remove_from_failed, hm] using h
      have hrw : applyFailedOps l (op :: rest) = applyFailedOps (applyFailedOps l [op]) rest := by
        simp [applyFailedOps]
      rw [hrw]
      exact ih _ hstep

/-- Witness for C7 at concrete inputs. -/
theorem failed_list_set_like_witness :
    remove_from_failed (remove_from_failed ["a", "b"] "a") "a" = remove_from_failed ["a", "b"] "a"
    ∧ (applyFailedOps ["a"] [.add "b", .add "b", .remove "a"]).Nodup :=
  ⟨failed_list_set_like.2.1 ["a", "b"] "a" (by decide),
   failed_list_set_like.2.2 ["a"] [.add "b", .add "b", .remove "a"] (by decide)⟩

/-- C8: when appending a transformed article pushes the buffer's UTF-8
byte size over 5,000,000, the buffer (closed with `</articles>`) is
flushed to the file numbered by the current counter, the counter
increments by one and the buffer resets to the empty `<articles>`
container; otherwise the buffer just grows; at the end of a topic
directory any buffer longer than the bare wrapper is flushed; and every
transformed article of a topic run ends up inside one of the written
files (none is silently dropped). -/
theorem xml_batching_flush :
    (∀ (st : BatchSt) (x : String), 5000000 < (st.contents ++ x ++ "\n").utf8ByteSize →
        appendArticleXml st x =
          { contents := "<articles>\n", filecounter := st.filecounter + 1,
            written := st.written ++ [(st.filecounter, st.contents ++ x ++ "\n" ++ "</articles>")] })
    ∧ (∀ (st : BatchSt) (x : String), (st.contents ++ x ++ "\n").utf8ByteSize ≤ 5000000 →
        appendArticleXml st x = { st with contents := st.contents ++ x ++ "\n" })
    ∧ (∀ st : BatchSt, 11 < st.contents.length →
        writeRemaining st =
          { st with written := st.written ++ [(st.filecounter, st.contents ++ "</articles>")] })
    ∧ (∀ (xmls : List String), ∀ x ∈ xmls,
        ∃ f ∈ (runTopicBatch xmls).written, x.data <:+: f.2.data) := by
  refine ⟨?_, ?_, ?_, ?_⟩
  · intro st x h
    unfold appendArticleXml
    dsimp only
    rw [if_pos h]
  · intro st x h
    unfold appendArticleXml
    dsimp only
    rw [if_neg (by omega)]
  · intro st h
    unfold writeRemaining
    rw [if_pos h]
  · intro xmls x hx
    have h0 : 11 ≤ (batchSt0.contents.length) := by decide
    obtain ⟨-, -, hmem⟩ := batch_fold xmls batchSt0 h0
    exact batch_final _ x (hmem x hx)

/-- Witness for C8: a buffer of `16 * 2 ^ 19 = 8388608` bytes exceeds
the threshold and flushes; a one-article topic writes its article. -/
theorem xml_batching_flush_witness :
    appendArticleXml bigBatch "x" =
      { contents := "<articles>\n", filecounter := bigBatch.filecounter + 1,
        written := bigBatch.written ++ [(bigBatch.filecounter, bigBatch.contents ++ "x" ++ "\n" ++ "</articles>")] }
    ∧ ∃ f ∈ (runTopicBatch ["<text>hi</text>"]).written, "<text>hi</text>".data <:+: f.2.data :=
  ⟨xml_batching_flush.1 bigBatch "x"
    (by
      show 5000000 < (bigStr 19 ++ "x" ++ "\n").utf8ByteSize
      rw [string_utf8_append, string_utf8_append, bigStr_size]
      have h1 : ("x" : String).utf8ByteSize = 1 := rfl
      have h2 : ("\n" : String).utf8ByteSize = 1 := rfl
      rw [h1, h2]
      norm_num),
   xml_batching_flush.2.2.2 ["<text>hi</text>"] "<text>hi</text>" (by simp)⟩



/-- When the stop-date block falls through, `processItem` is exactly the
seen-streak phase followed by the fetch phase. -/
theorem processItem_gate_open (cfg : CrawlCfg) (topicName : String) (c : Item) (st : CrawlSt)
    (hurl : ¬stripHost c.url = "") (hopen : dateGateOpen cfg c = true) :
    processItem cfg topicName c st =
      if ¬cfg.force ∧ stripHost c.url ∈ st.savedUrls then
        (if cfg.stopdate = none ∧ maxSeenArticles ≤ st.seenCtr + 1 then
           .stop (save_results { st with seenCtr := st.seenCtr + 1 })
         else fetchPhase cfg topicName (stripHost c.url) c.published
                { st with seenCtr := st.seenCtr + 1 })
      else fetchPhase cfg topicName (stripHost c.url) c.published { st with seenCtr := 0 } := by
  unfold processItem
  dsimp only
  rw [if_neg hurl]
  rcases hsd : cfg.stopdate with _ | sd
  · rcases hpub : c.published with _ | dstr <;> rfl
  · rcases hpub : c.published with _ | dstr
    · rfl
    · by_cases hdne : dstr = ""
      · subst hdne
        simp
      · rcases hpr : parseYMD (pyTake dstr 10) with _ | pd
        · exfalso
          unfold dateGateOpen dateCrash at hopen
          rw [hsd, hpub] at hopen
          simp [hdne, hpr] at hopen
        · have hnt : ymdLt pd sd = false := by
            unfold dateGateOpen dateTrigger at hopen
            rw [hsd, hpub] at hopen
            simp [hdne, hpr] at hopen
            exact hopen.1
          simp [hdne, hpr, hnt]

/-- When the `strptime` of the stop-date comparison raises, the item
crashes the crawl before any streak or fetch logic. -/
theorem processItem_date_crash (cfg : CrawlCfg) (topicName : String) (c : Item) (st : CrawlSt)
    (hurl : ¬stripHost c.url = "") (hcrash : dateCrash cfg c = true) :
    processItem cfg topicName c st = .crash st .valueError := by
  unfold processItem
  dsimp only
  rw [if_neg hurl]
  unfold dateCrash at hcrash
  rcases hsd : cfg.stopdate with _ | sd
  · rw [hsd] at hcrash
    rcases hpub : c.published with _ | dstr <;> rw [hpub] at hcrash <;> simp at hcrash
  · rw [hsd] at hcrash
    rcases hpub : c.published with _ | dstr
    · rw [hpub] at hcrash
      simp at hcrash
    · rw [hpub] at hcrash
      simp at hcrash
      obtain ⟨hdne, hpr⟩ := hcrash
      simp [hdne, hpr]

/-- C5 (amended): during a crawl without `force`, a listing item with a
non-empty short URL that passes the stop-date block and is already in
the crawled index increments the seen-streak counter; such an item not
in the index resets the streak to 0; an item with an empty short URL is
skipped and leaves the streak unchanged; when no stop date is given and
the streak reaches the threshold of 50 the crawler persists its state
(`save_results`) and stops the topic; and when a stop date is given the
streak never causes a stop. -/
theorem seen_streak_policy (cfg : CrawlCfg) (topicName : String)
    (hforce : cfg.force = false) :
    (∀ (c : Item) (st : CrawlSt), stripHost c.url ≠ "" → dateGateOpen cfg c = true →
        stripHost c.url ∈ st.savedUrls →
        ((processItem cfg topicName c st).state).seenCtr = st.seenCtr + 1)
    ∧ (∀ (c : Item) (st : CrawlSt), stripHost c.url ≠ "" → dateGateOpen cfg c = true →
        stripHost c.url ∉ st.savedUrls →
        ((processItem cfg topicName c st).state).seenCtr = 0)
    ∧ (∀ (c : Item) (st : CrawlSt), stripHost c.url = "" →
        processItem cfg topicName c st = .cont st)
    ∧ (∀ (c : Item) (st : CrawlSt), cfg.stopdate = none → stripHost c.url ≠ "" →
        stripHost c.url ∈ st.savedUrls → maxSeenArticles ≤ st.seenCtr + 1 →
        processItem cfg topicName c st
          = .stop (save_results { st with seenCtr := st.seenCtr + 1 }))
    ∧ (∀ (c : Item) (st st1 : CrawlSt) (sd : Nat × Nat × Nat), cfg.stopdate = some sd →
        dateTrigger cfg c = false → processItem cfg topicName c st ≠ .stop st1) := by
  refine ⟨?_, ?_, ?_, ?_, ?_⟩
  · intro c st hurl hopen hmem
    rw [processItem_gate_open cfg topicName c st hurl hopen]
    rw [if_pos ⟨by simp [hforce], hmem⟩]
    split
    · simp [StepRes.state, save_results_seenCtr]
    · simp [fetchPhase_seenCtr]
  · intro c st hurl hopen hmem
    rw [processItem_gate_open cfg topicName c st hurl hopen]
    rw [if_neg (by intro hc; exact hmem hc.2)]
    simp [fetchPhase_seenCtr]
  · intro c st hurl
    unfold processItem
    dsimp only
    rw [if_pos hurl]
  · intro c st hsd hurl hmem hthr
    have hopen : dateGateOpen cfg c = true := by
      unfold dateGateOpen dateTrigger dateCrash
      rw [hsd]
      rcases c.published <;> rfl
    rw [processItem_gate_open cfg topicName c st hurl hopen]
    rw [if_pos ⟨by simp [hforce], hmem⟩, if_pos ⟨hsd, hthr⟩]
  · intro c st st1 sd hsd hnt
    by_cases hurl : stripHost c.url = ""
    · simp [processItem, hurl]
    · cases hopen : dateGateOpen cfg c with
      | false =>
        have hcrash : dateCrash cfg c = true := by
          unfold dateGateOpen at hopen
          cases hv : dateCrash cfg c
          · rw [hnt, hv] at hopen
            simp at hopen
          · rfl
        rw [processItem_date_crash cfg topicName c st hurl hcrash]
        intro hc
        exact StepRes.noConfusion hc
      | true =>
        rw [processItem_gate_open cfg topicName c st hurl hopen]
        split
        · rw [if_neg (by rw [hsd]; rintro ⟨hc, -⟩; exact Option.noConfusion hc)]
          exact fetchPhase_ne_stop cfg topicName _ _ _ st1
        · exact fetchPhase_ne_stop cfg topicName _ _ _ st1



/-- C9 (amended): a listing item with a non-empty short URL and no
`published` field makes the item-processing step raise an uncaught
`TypeError` when the fetch call's argument `article_date[:10]` slices
`None`, aborting the page loop (and so the whole crawl) with the failed
list untouched — the date guard of lines 213-218 covers only the
stop-date comparison, not the fetch call — unless the item itself
triggers the 50-consecutive-seen stop first, in which case the topic
stops normally. -/
theorem missing_date_crashes_crawl (cfg : CrawlCfg) (topicName : String) (c : Item)
    (hurl : stripHost c.url ≠ "") (hpub : c.published = none) :
    (∀ st : CrawlSt,
        ¬(cfg.stopdate = none ∧ ¬cfg.force ∧ stripHost c.url ∈ st.savedUrls
            ∧ maxSeenArticles ≤ st.seenCtr + 1) →
        processItem cfg topicName c st = .crash (crashState cfg c st) .typeError)
    ∧ (∀ (st : CrawlSt) (rest : List Item),
        ¬(cfg.stopdate = none ∧ ¬cfg.force ∧ stripHost c.url ∈ st.savedUrls
            ∧ maxSeenArticles ≤ st.seenCtr + 1) →
        processPage cfg topicName (c :: rest) st = .crash (crashState cfg c st) .typeError)
    ∧ (∀ st : CrawlSt, (crashState cfg c st).failedUrls = st.failedUrls
        ∧ (crashState cfg c st).fetchedArticles = st.fetchedArticles) := by
  have hopen : dateGateOpen cfg c = true := by
    unfold dateGateOpen dateTrigger dateCrash
    rw [hpub]
    rcases cfg.stopdate <;> rfl
  have key : ∀ st : CrawlSt,
      ¬(cfg.stopdate = none ∧ ¬cfg.force ∧ stripHost c.url ∈ st.savedUrls
          ∧ maxSeenArticles ≤ st.seenCtr + 1) →
      processItem cfg topicName c st = .crash (crashState cfg c st) .typeError := by
    intro st hno
    rw [processItem_gate_open cfg topicName c st hurl hopen]
    unfold crashState
    by_cases hseen : ¬cfg.force ∧ stripHost c.url ∈ st.savedUrls
    · rw [if_pos hseen, if_pos hseen]
      rw [if_neg (by
        rintro ⟨h1, h2⟩
        exact hno ⟨h1, (by simpa using hseen.1), hseen.2, h2⟩)]
      rw [hpub]
      rfl
    · rw [if_neg hseen, if_neg hseen]
      rw [hpub]
      rfl
  refine ⟨key, ?_, ?_⟩
  · intro st rest hno
    simp [processPage, key st hno]
  · intro st
    constructor <;> (unfold crashState; split <;> rfl)

/-- C10 (amended): during a crawl without `force`, an already-indexed
short URL passed to `get_article` returns success immediately with the
state untouched (no article request is recorded); consequently a listing
item with a date that passes the stop-date block, is already indexed,
and does not trigger the 50-seen streak stop leaves the item loop with
the streak incremented and its short URL removed from the failed list —
without any network call. -/
theorem seen_item_skips_network (cfg : CrawlCfg) (topicName : String)
    (hforce : cfg.force = false) :
    (∀ (u tn : String) (st : CrawlSt), stripHost u ∈ st.savedUrls →
        get_article cfg u tn st = (true, st))
    ∧ (∀ (c : Item) (st : CrawlSt) (d : String),
        stripHost c.url ≠ "" → c.published = some d → dateGateOpen cfg c = true →
        stripHost c.url ∈ st.savedUrls →
        pyStartsWith (stripHost c.url) "https://www.svt.se" = false →
        ¬(cfg.stopdate = none ∧ maxSeenArticles ≤ st.seenCtr + 1) →
        processItem cfg topicName c st =
          .cont { st with
                  seenCtr := st.seenCtr + 1
                  failedUrls := remove_from_failed st.failedUrls (stripHost c.url) }) := by
  have hget : ∀ (u tn : String) (st : CrawlSt), stripHost u ∈ st.savedUrls →
      get_article cfg u tn st = (true, st) := by
    intro u tn st hmem
    unfold get_article
    dsimp only
    rw [if_pos ⟨hmem, by simp [hforce]⟩]
  refine ⟨hget, ?_⟩
  intro c st d hurl hd hopen hmem hnp hno
  rw [processItem_gate_open cfg topicName c st hurl hopen]
  rw [if_pos ⟨by simp [hforce], hmem⟩]
  rw [if_neg (by rintro ⟨h1, h2⟩; exact hno ⟨h1, h2⟩)]
  rw [hd]
  unfold fetchPhase
  dsimp only
  have hagain : stripHost (stripHost c.url) = stripHost c.url := by
    revert hnp
    generalize stripHost c.url = u
    intro hnp
    unfold stripHost
    rw [hnp]
    simp
  rw [hget (stripHost c.url) topicName { st with seenCtr := st.seenCtr + 1 }
    (by rw [hagain]; exact hmem)]
  simp


/-- C4 (amended): with a stop date set, a listing item with a non-empty
short URL and a well-formed publication date strictly before the stop
date stops the topic from any state: `save_results` is called (one more
persistence checkpoint, no article request), every item after it on the
page is ignored, and when the page loop of `get_urls` stops, the
remaining pages of the topic are never processed. -/
theorem stopdate_halts_topic (cfg : CrawlCfg) (topicName : String) (sd : Nat × Nat × Nat)
    (trig : Item) (d : String) (pd : Nat × Nat × Nat)
    (hsd : cfg.stopdate = some sd)
    (hurl : ¬stripHost trig.url = "")
    (hd : trig.published = some d)
    (hne : d ≠ "")
    (hp : parseYMD (pyTake d 10) = some pd)
    (hlt : ymdLt pd sd = true) :
    (∀ st, processItem cfg topicName trig st = .stop (save_results st))
    ∧ (∀ (pre post : List Item) (st : CrawlSt),
        processPage cfg topicName (pre ++ trig :: post) st
          = processPage cfg topicName (pre ++ [trig]) st)
    ∧ (∀ st : CrawlSt, (save_results st).fetchedArticles = st.fetchedArticles
        ∧ (save_results st).saveCalls = st.saveCalls + 1)
    ∧ (∀ (firstItems : List Item) (rest : List Page) (st st1 : CrawlSt),
        processPage cfg topicName firstItems { st with prevCrawled := st.savedUrls.length }
          = .stop st1 →
        get_urls cfg topicName firstItems rest st = .done st1) := by
  have hitem : ∀ st, processItem cfg topicName trig st = .stop (save_results st) := by
    intro st
    simp [processItem, hsd, hd, hne, hp, hlt, hurl]
  refine ⟨hitem, ?_, ?_, ?_⟩
  · intro pre post st
    exact processPage_early_exit cfg topicName trig
      (by intro s s1 hc; rw [hitem s] at hc; exact StepRes.noConfusion hc) pre post st
  · intro st
    exact ⟨save_results_fetched st, save_results_saveCalls st⟩
  · intro firstItems rest st st1 h1
    unfold get_urls
    dsimp only
    rw [h1]




/-- C1: the retry pass crashes with an uncaught `TypeError` on any
FailedList entry that is a direct article URL, because line 421 calls
`get_article` without the required `article_date` argument; the indices
are never persisted.  (The topic-name derivation itself succeeds, so the
crash is not the IndexError of lines 393-398.)  This contradicts the
specified behaviour of attempting the fetch and persisting both indices
once at the end of the pass. -/
theorem retry_failed_article_entry_typeerror :
    retry_failed noneListingOracle retryArticleSt = .error .typeError
    ∧ topicFromUrl "/nyheter/inrikes/alpha" = .ok "inrikes" :=
  ⟨rfl, rfl⟩

/-- C2: by Python operator precedence, `process_article` rewrites a
`www`-prefixed url by prepending the full site host, producing a doubled
host, instead of leaving it unrewritten as specified; `http`-prefixed
urls are kept, host-relative paths are rewritten, and an empty url sets
no attribute. -/
theorem process_article_url_www_rewritten :
    articleUrlAttr "www.svt.se/nyheter/inrikes/test"
      = some "https://www.svt.sewww.svt.se/nyheter/inrikes/test"
    ∧ articleUrlAttr "https://www.svt.se/nyheter/a" = some "https://www.svt.se/nyheter/a"
    ∧ articleUrlAttr "/nyheter/a" = some "https://www.svt.se/nyheter/a"
    ∧ articleUrlAttr "" = none := by
  refine ⟨by decide, by decide, by decide, by decide⟩

/-- C3 counterexample: for the literal two-node body
`[ p with content A (no children), h2 with content B (no children) ]`
the transformer puts `"A B"` into the root's text — the texts are
space-concatenated, and no paragraph children with texts `A` and `B`
exist anywhere in the output. -/
theorem parse_element_flat_body_concatenates :
    bodyOutput "" litBody = .ok c3LitTree
    ∧ siblingParas c3LitTree "A" "B" = false := by
  constructor
  · simp +decide [bodyOutput, processBody, parse_element, rootWithTitle, pruneEmpty,
      pruneEmpty.pruneList, isEmptyEl, skipTypes, phMatch, XmlNode.textOf, XmlNode.withText,
      XmlNode.addChild, XmlNode.tagOf, pyStrip, litBody, c3LitTree]
  · simp +decide [siblingParas, siblingParas.pairInList, siblingParas.anyChild, c3LitTree,
      XmlNode.tagOf, XmlNode.textOf]

/-- C3 (amended): a `p`/`h<digit>` node starts a new paragraph child
only when it has a `children` key, and a node's own `content` is
appended to the current container before any new paragraph exists; so
for the API-shaped body where each text sits in a `text` child of its
`p`/`h2` node, the output has two sibling paragraph nodes with texts
`A` and `B` (not concatenated), while the spec's literal childless
two-node list concatenates instead (see the counterexample). -/
theorem parse_element_children_body_two_paragraphs :
    bodyOutput "" amBody = .ok c3AmTree
    ∧ siblingParas c3AmTree "A" "B" = true := by
  constructor
  · simp +decide [bodyOutput, processBody, parse_element, rootWithTitle, pruneEmpty,
      pruneEmpty.pruneList, isEmptyEl, skipTypes, phMatch, XmlNode.textOf, XmlNode.withText,
      XmlNode.addChild, XmlNode.tagOf, pyStrip, amBody, c3AmTree]
  · simp +decide [siblingParas, siblingParas.pairInList, siblingParas.anyChild, c3AmTree,
      XmlNode.tagOf, XmlNode.textOf]

/-- C6: `get_article` derives the storage year from the first content
entry's `published` timestamp, falling back to `modified` when
`published` is absent (or empty, which Python truthiness treats alike);
a derived year outside `[2004, thisYear]` is redirected to the sentinel
`"nodate"` bucket; in particular an article published `1999-01-01` is
written under `data/svt-nodate/…` and one published `2022-05-01` under
`data/svt-2022/…`. -/
theorem storage_year_bucketing (thisYear : Nat) (h22 : 2022 ≤ thisYear) :
    (∀ modified : Option String,
        storageYear none modified thisYear = storageYear (some "") modified thisYear)
    ∧ (∀ m : String, storageYear none (some m) thisYear = storageYear (some m) none thisYear)
    ∧ (∀ (p : String) (modified : Option String) (y : Nat),
        pyToNat (pyTake p 4) = some y → p ≠ "" →
        (y < 2004 ∨ thisYear < y → storageYear (some p) modified thisYear = some "nodate")
        ∧ (2004 ≤ y → y ≤ thisYear → storageYear (some p) modified thisYear = some (toString y)))
    ∧ ((get_article (cfg1999 thisYear) "/nyheter/inrikes/a" "inrikes" crawlSt0).2.writtenFiles
        = ["data/svt-nodate/inrikes/42.json"])
    ∧ ((get_article (cfg2022 thisYear) "/nyheter/inrikes/b" "inrikes" crawlSt0).2.writtenFiles
        = ["data/svt-2022/inrikes/43.json"]) := by
  refine ⟨?_, ?_, ?_, ?_, ?_⟩
  · intro modified
    rfl
  · intro m
    by_cases hm : m = ""
    · subst hm
      rfl
    · simp [storageYear, hm]
  · intro p modified y hy hne
    constructor
    · intro hrange
      unfold storageYear
      dsimp only
      rw [if_pos hne, hy]
      simp [if_pos hrange]
    · intro h1 h2
      unfold storageYear
      dsimp only
      rw [if_pos hne, hy]
      have hc : ¬(y < 2004 ∨ thisYear < y) := by omega
      simp [hc]
  · have h99 : pyToNat (pyTake "1999-01-01" 4) = some 1999 := by decide
    have hs : stripHost "/nyheter/inrikes/a" = "/nyheter/inrikes/a" := by decide
    simp +decide [get_article, cfg1999, crawlSt0, oracle1999, storageYear, h99, hs,
      articleFilePath]
  · have h22n : pyToNat (pyTake "2022-05-01" 4) = some 2022 := by decide
    have hs : stripHost "/nyheter/inrikes/b" = "/nyheter/inrikes/b" := by decide
    have hlt : ¬thisYear < 2022 := by omega
    have ht : toString (2022 : Nat) = "2022" := by decide
    simp +decide [get_article, cfg2022, crawlSt0, oracle2022, storageYear, h22n, hs, hlt, ht,
      articleFilePath]



/-- C4 counterexample: with stop date 2020-01-01, a page whose first
item is dated 2019-12-31 (strictly before the stop date) but has an
empty URL does not stop the topic: the loop skips the item entirely,
never persists (`saveCalls = 0`), and fetches the following item. -/
theorem stopdate_empty_url_item_does_not_stop :
    processPage cfgStop2020 "inrikes" [itemEmptyOld, itemNew2020] crawlSt0 = .cont c4CexSt
    ∧ dateTrigger cfgStop2020 itemEmptyOld = true
    ∧ c4CexSt.fetchedArticles = ["/nyheter/inrikes/a"]
    ∧ c4CexSt.saveCalls = 0 := by
  refine ⟨by decide, by decide, by decide, by decide⟩

/-- Witness for C4 at a concrete stop date, item and page. -/
theorem stopdate_halts_topic_witness :
    processItem cfgStop2020 "inrikes" itemOld2019 crawlSt0 = .stop (save_results crawlSt0)
    ∧ processPage cfgStop2020 "inrikes" ([itemNew2020] ++ itemOld2019 :: [itemNew2020]) crawlSt0
        = processPage cfgStop2020 "inrikes" ([itemNew2020] ++ [itemOld2019]) crawlSt0 :=
  ⟨(stopdate_halts_topic cfgStop2020 "inrikes" (2020, 1, 1) itemOld2019 "2019-12-31" (2019, 12, 31)
      rfl (by decide) rfl (by decide) (by decide) (by decide)).1 crawlSt0,
   (stopdate_halts_topic cfgStop2020 "inrikes" (2020, 1, 1) itemOld2019 "2019-12-31" (2019, 12, 31)
      rfl (by decide) rfl (by decide) (by decide) (by decide)).2.1 [itemNew2020] [itemNew2020] crawlSt0⟩

/-- C5 counterexample: an item with an empty URL is not in the crawled
index, yet processing it leaves the seen-streak counter at 1 instead of
resetting it to 0 — the loop skips such items entirely. -/
theorem seen_streak_empty_url_no_reset :
    ¬("" ∈ c5CexSt.savedUrls)
    ∧ processItem cfgNoStop "t" itemEmptyOld c5CexSt = .cont c5CexSt
    ∧ c5CexSt.seenCtr = 1 := by
  refine ⟨by decide, by decide, by decide⟩

/-- Witness for C5: a concrete increment and a concrete streak stop at
the 50th consecutive seen item. -/
theorem seen_streak_policy_witness :
    ((processItem cfgNoStop "t" itemSeenA { crawlSt0 with savedUrls := ["/a"], seenCtr := 3 }).state).seenCtr = 3 + 1
    ∧ processItem cfgNoStop "t" itemSeenA { crawlSt0 with savedUrls := ["/a"], seenCtr := 49 }
        = .stop (save_results { crawlSt0 with savedUrls := ["/a"], seenCtr := 49 + 1 }) :=
  ⟨(seen_streak_policy cfgNoStop "t" rfl).1 itemSeenA
      { crawlSt0 with savedUrls := ["/a"], seenCtr := 3 } (by decide) (by decide) (by decide),
   (seen_streak_policy cfgNoStop "t" rfl).2.2.2.1 itemSeenA
      { crawlSt0 with savedUrls := ["/a"], seenCtr := 49 } rfl (by decide) (by decide) (by decide)⟩

set_option maxRecDepth 400000 in
/-- C9 counterexample: 49 dated already-indexed items followed by an
undated already-indexed item produce a clean 50-seen streak stop — the
undated item has a non-empty URL and no `published` field, yet no
uncaught error is raised. -/
theorem missing_date_streak_stop_no_crash :
    processPage cfgNoStop "t" c9Items c9St = .stop c9OutSt
    ∧ c9Items.getLast? = some itemSeenANoDate
    ∧ stripHost itemSeenANoDate.url ≠ ""
    ∧ itemSeenANoDate.published = none := by
  refine ⟨by decide, by decide, by decide, rfl⟩

/-- Witness for C9 at a concrete undated item. -/
theorem missing_date_crashes_crawl_witness :
    processItem cfgNoStop "inrikes" itemNoDate crawlSt0
      = .crash (crashState cfgNoStop itemNoDate crawlSt0) .typeError :=
  (missing_date_crashes_crawl cfgNoStop "inrikes" itemNoDate (by decide) rfl).1 crawlSt0 (by decide)

set_option maxRecDepth 400000 in
/-- C10 counterexample: the already-indexed item `/b` (present in the
failed list) arrives as the 50th consecutive seen item; the topic stops
before the item reaches the article fetcher, so `/b` stays in the
failed list and no article request was ever issued. -/
theorem seen_item_streak_stop_leaves_failed :
    processPage cfgNoStop "t" c10Items c10St = .stop c10OutSt
    ∧ "/b" ∈ c10St.savedUrls
    ∧ "/b" ∈ c10OutSt.failedUrls
    ∧ c10OutSt.fetchedArticles = [] := by
  refine ⟨by decide, by decide, by decide, by decide⟩

/-- Witness for C10 at a concrete already-indexed item. -/
theorem seen_item_skips_network_witness :
    get_article cfgNoStop "/a" "t" c10St = (true, c10St)
    ∧ processItem cfgNoStop "t" itemSeenB c10St
        = .cont { c10St with
                  seenCtr := c10St.seenCtr + 1
                  failedUrls := remove_from_failed c10St.failedUrls (stripHost itemSeenB.url) } :=
  ⟨(seen_item_skips_network cfgNoStop "t" rfl).1 "/a" "t" c10St (by decide),
   (seen_item_skips_network cfgNoStop "t" rfl).2 itemSeenB c10St "2024-01-01"
      (by decide) rfl (by decide) (by decide) (by decide) (by decide)⟩

/-- Witness for C6 with the current year instantiated to 2026. -/
theorem storage_year_bucketing_witness :
    ((get_article (cfg1999 2026) "/nyheter/inrikes/a" "inrikes" crawlSt0).2.writtenFiles
      = ["data/svt-nodate/inrikes/42.json"])
    ∧ ((get_article (cfg2022 2026) "/nyheter/inrikes/b" "inrikes" crawlSt0).2.writtenFiles
      = ["data/svt-2022/inrikes/43.json"])
    ∧ storageYear (some "2022-05-01") none 2026 = some (toString 2022) :=
  ⟨(storage_year_bucketing 2026 (by decide)).2.2.2.1,
   (storage_year_bucketing 2026 (by decide)).2.2.2.2,
   ((storage_year_bucketing 2026 (by decide)).2.2.1 "2022-05-01" none 2022
      (by decide) (by decide)).2 (by decide) (by decide)⟩


end Svt
